import Mathlib

/-!
Verification development for the codex-agent-sdk protocol engine.

The Python source under `src/codex_agent_sdk/` is shallowly embedded here:
JSON values become the inductive type `Json` (Python `None` is `Json.null`,
so `dict.get` returning `None` and a stored JSON `null` coincide, exactly as
in Python), pure functions become Lean functions, and the stateful
request-correlation engine becomes explicit state passing over
`ClientState`.  Exceptions are modelled structurally (`SdkErr`) and fallible
code returns `Except`.  `json.loads` is an external C routine; the transport
framing is therefore parameterised by a decode oracle
`decode : String → Option Json`.
-/

namespace CodexSpec

/-- A decoded JSON value.  Python `None` is `Json.null`. -/
inductive Json where
  | null
  | bool (b : Bool)
  | num (n : Int)
  | str (s : String)
  | arr (elems : List Json)
  | obj (fields : List (String × Json))

/-- First-match lookup in an object's field list (Python dict keys are
unique, so first-match agrees with dict lookup). -/
def lookupField : List (String × Json) → String → Option Json
  | [], _ => none
  | (k, v) :: rest, key => if k = key then some v else lookupField rest key

/-- Python `d.get(key)`: `None` (here `Json.null`) when the key is absent. -/
def Json.getd (j : Json) (key : String) : Json :=
  match j with
  | .obj fs =>
    match lookupField fs key with
    | some v => v
    | none => .null
  | _ => .null

/-- Python `d.get(key, default)`. -/
def Json.getD (j : Json) (key : String) (dflt : Json) : Json :=
  match j with
  | .obj fs =>
    match lookupField fs key with
    | some v => v
    | none => dflt
  | _ => dflt

/-- Python `key in d`. -/
def Json.hasKey (j : Json) (key : String) : Bool :=
  match j with
  | .obj fs => (lookupField fs key).isSome
  | _ => false

/-- Python truthiness of a JSON value. -/
def Json.truthy : Json → Bool
  | .null => false
  | .bool b => b
  | .num n => !(n == 0)
  | .str s => !(s == "")
  | .arr xs => !xs.isEmpty
  | .obj fs => !fs.isEmpty

/-- Python `a or b` on JSON values. -/
def jsonOr (a b : Json) : Json := if a.truthy then a else b

/-- Python `a or b` on `Optional[str]` values (`None` and `""` are falsy). -/
def strOr (a b : Option String) : Option String :=
  match a with
  | some s => if s = "" then b else some s
  | none => b

/-- Python `x if isinstance(x, str) else None`. -/
def asStrOpt : Json → Option String
  | .str s => some s
  | _ => none

/-- Python `x if isinstance(x, dict) else None`. -/
def asObjOpt : Json → Option Json
  | .obj fs => some (.obj fs)
  | _ => none

/-- Python `isinstance(x, dict)`. -/
def Json.isObjB : Json → Bool
  | .obj _ => true
  | _ => false

/-- Python `x is None`. -/
def Json.isNullB : Json → Bool
  | .null => true
  | _ => false

/-- Python `x is True`. -/
def Json.isTrueB : Json → Bool
  | .bool true => true
  | _ => false

/-- Python `j == s` for a string literal `s`. -/
def jeqStr (j : Json) (s : String) : Bool :=
  match j with
  | .str t => t == s
  | _ => false

/-- Python `s in l` for a set/list of string literals. -/
def strIn (s : String) : List String → Bool
  | [] => false
  | k :: ks => s == k || strIn s ks

/-- Python `o in l` where `o : Optional[str]` (`None` is never a member). -/
def optIn (o : Option String) (l : List String) : Bool :=
  match o with
  | some s => strIn s l
  | none => false

/-- Python `j in l` where `j` is an arbitrary JSON value and `l` holds
string literals: only a string can be a member. -/
def memJ (j : Json) (l : List String) : Bool :=
  match j with
  | .str s => strIn s l
  | _ => false

/-- Python `s.startswith(p)`. -/
def strStarts (s p : String) : Bool := p.toList.isPrefixOf s.toList

/-- Python `s.endswith(p)`. -/
def strEnds (s p : String) : Bool := p.toList.isSuffixOf s.toList

/-- Helper for substring search: does `needle` occur in the char list? -/
def containsAux (needle : List Char) : List Char → Bool
  | [] => needle.isPrefixOf []
  | c :: rest => needle.isPrefixOf (c :: rest) || containsAux needle rest

/-- Python `sub in s` (substring containment). -/
def strContains (s sub : String) : Bool := containsAux sub.toList s.toList

/-- Python `raw_type and raw_type.startswith(p)` for `raw_type : Optional[str]`. -/
def optStarts (o : Option String) (p : String) : Bool :=
  match o with
  | some t => !(t == "") && strStarts t p
  | none => false

/-- Python `raw_type and ("delta" in raw_type)`-style containment on
`Optional[str]`. -/
def optContains (o : Option String) (sub : String) : Bool :=
  match o with
  | some t => !(t == "") && strContains t sub
  | none => false

/-- Python `s.strip()` for (ASCII) whitespace. -/
def pyStrip (s : String) : String :=
  String.mk (((s.toList.dropWhile Char.isWhitespace).reverse.dropWhile
    Char.isWhitespace).reverse)

/-- Python `s.lower()`. -/
def pyLower (s : String) : String := String.mk (s.toList.map Char.toLower)

/-- A single-quote character, used by Python `repr` of strings. -/
def squote : String := String.singleton (Char.ofNat 39)

/-- Field-size bound used for termination of recursion through `lookupField`. -/
theorem sizeOf_lookupField {fs : List (String × Json)} {key : String} {v : Json}
    (h : lookupField fs key = some v) : sizeOf v < sizeOf fs := by
  induction fs with
  | nil => simp [lookupField] at h
  | cons p rest ih =>
    obtain ⟨k, w⟩ := p
    by_cases hk : k = key
    · simp [lookupField, hk] at h
      subst h
      simp
      omega
    · simp [lookupField, hk] at h
      have := ih h
      simp
      omega

/-- `src/codex_agent_sdk/_internal/message_parser.py`, `_extract_text`:
recursively unwrap nested `text`/`content` keys and concatenate truthy
list elements. -/
def extractText : Json → Option String
  | .str s => some s
  | .obj fs =>
    match lookupField fs "text" with
    | some (.str t) => some t
    | _ =>
      match h : lookupField fs "content" with
      | some c => extractText c
      | none => none
  | .arr xs =>
    let parts := (xs.attach.map (fun x => extractText x.1)).foldr (fun o acc =>
        match o with
        | some t => if t = "" then acc else t :: acc
        | none => acc) []
    if parts.isEmpty then none else some (String.intercalate "" parts)
  | _ => none
termination_by j => sizeOf j
decreasing_by
  · have h1 := sizeOf_lookupField h
    simp
    omega
  · have h1 := List.sizeOf_lt_of_mem x.2
    simp
    omega

/-- Python `str()`/`repr()` of a JSON value (repr for nested members).
String escaping inside `repr` is not reproduced; no theorem depends on it. -/
def pyRepr : Json → String
  | .null => "None"
  | .bool true => "True"
  | .bool false => "False"
  | .num n => toString n
  | .str s => squote ++ s ++ squote
  | .arr xs =>
    "[" ++ String.intercalate ", " (xs.attach.map (fun x => pyRepr x.1)) ++ "]"
  | .obj fs =>
    "\x7b" ++ String.intercalate ", " (fs.attach.map (fun p =>
      match hp : p.1 with
      | (k, v) => squote ++ k ++ squote ++ ": " ++ pyRepr v)) ++ "\x7d"
termination_by j => sizeOf j
decreasing_by
  · have h1 := List.sizeOf_lt_of_mem x.2
    simp
    omega
  · have h1 := List.sizeOf_lt_of_mem p.2
    simp [hp] at h1
    simp
    omega

/-- Python `str()` of a JSON value (`str` of a string is itself). -/
def pyStr : Json → String
  | .str s => s
  | j => pyRepr j

/-- `type(x).__name__` for a JSON value. -/
def pyTypeName : Json → String
  | .null => "NoneType"
  | .bool _ => "bool"
  | .num _ => "int"
  | .str _ => "str"
  | .arr _ => "list"
  | .obj _ => "dict"

/-- `message_parser.FINAL_TYPES`. -/
def FINAL_TYPES : List String :=
  ["result", "final", "done", "completed", "response.completed",
   "response.done", "response.final", "turn.completed"]

/-- `message_parser.FINAL_STATUSES`. -/
def FINAL_STATUSES : List String :=
  ["completed", "done", "finished", "succeeded", "success", "failed",
   "error", "cancelled"]

/-- `message_parser.ERROR_TYPES`. -/
def ERROR_TYPES : List String := ["error", "response.error"]

/-- `message_parser.ITEM_MESSAGE_TYPES`. -/
def ITEM_MESSAGE_TYPES : List String :=
  ["agent_message", "assistant_message", "assistant_message_delta",
   "assistant_message_chunk", "assistant_message_final", "reasoning",
   "thinking", "user_message"]

/-- `message_parser.ITEM_TOOL_TYPES`. -/
def ITEM_TOOL_TYPES : List String :=
  ["command_execution", "commandExecution", "tool_call", "toolCall",
   "tool_result", "toolResult", "fileChange", "mcpToolCall", "webSearch",
   "imageView", "collabAgentToolCall"]

/-- `message_parser.LOG_TOKENS`. -/
def LOG_TOKENS : List String := ["log", "stdout", "stderr", "console"]

/-- The assistant-role item types hardcoded in `parse_message`'s
role-inference step. -/
def ASSISTANT_ITEM_TYPES : List String :=
  ["agent_message", "assistant_message", "assistant_message_delta",
   "assistant_message_chunk", "assistant_message_final", "reasoning",
   "thinking"]

/-- The `CodexMessage` dataclass (`types.py`), with its dataclass defaults. -/
structure CodexMessageData where
  kind : String
  raw : Json
  event_type : Option String := none
  item_type : Option String := none
  role : Option String := none
  text : Option String := none
  tool_name : Option String := none
  tool_input : Option Json := none
  tool_output : Json := .null
  status : Option String := none
  error : Option String := none
  session_id : Option String := none

/-- The `CodexEvent` dataclass (`types.py`), with its dataclass defaults. -/
structure CodexEventData where
  kind : String
  event : Json
  event_type : Option String := none
  status : Option String := none
  session_id : Option String := none
  item_type : Option String := none

/-- `types.Message = CodexMessage | CodexEvent`. -/
inductive Message where
  | msg (m : CodexMessageData)
  | event (e : CodexEventData)

/-- `message_parser._extract_session_id`. -/
def extractSessionIdFrom : List String → Json → Option String
  | [], _ => none
  | k :: ks, raw =>
    match raw.getd k with
    | .str s => some s
    | _ => extractSessionIdFrom ks raw

/-- The key list scanned by `_extract_session_id`, in source order. -/
def SESSION_KEYS : List String :=
  ["session_id", "sessionId", "session", "conversation_id",
   "conversationId", "thread_id", "threadId"]

/-- `message_parser._extract_session_id` applied to its key list. -/
def extractSessionId (raw : Json) : Option String :=
  extractSessionIdFrom SESSION_KEYS raw

/-- `message_parser._get_raw_type`. -/
def getRawType (raw : Json) : Option String :=
  asStrOpt (jsonOr (raw.getd "type") (jsonOr (raw.getd "event") (raw.getd "kind")))

/-- `message_parser._is_log_type`. -/
def isLogType (o : Option String) : Bool :=
  match o with
  | some t => if t == "" then false else LOG_TOKENS.any (fun tok => strContains t tok)
  | none => false

/-- `data.get("status") if isinstance(data.get("status"), str) else None`. -/
def statusOf (d : Json) : Option String := asStrOpt (d.getd "status")

/-- The error-detection condition opening `parse_message`:
`raw_type in ERROR_TYPES or status in ("error","failed") or "error" in data`. -/
def isErrorShape (d : Json) : Bool :=
  optIn (getRawType d) ERROR_TYPES || optIn (statusOf d) ["error", "failed"]
    || d.hasKey "error"

/-- The error-text extraction inside `parse_message`'s error branch. -/
def errorTextOf (d : Json) : Option String :=
  match d.getd "error" with
  | .str s => some s
  | .obj fs =>
    asStrOpt (jsonOr ((Json.obj fs).getd "message") (.str (pyRepr (.obj fs))))
  | _ => asStrOpt (jsonOr (d.getd "error_message") (d.getd "errorMessage"))

/-- The guard of the `item.completed`/`item.started` branch of
`parse_message`. -/
def itemEventCond (d : Json) : Bool :=
  optIn (getRawType d) ["item.completed", "item.started"]
    && (d.getd "item").isObjB

/-- The best-effort tool detection of `parse_message` (lines 255-281):
computes the `(tool_name, tool_input, tool_output)` triple. -/
def toolTriple (d : Json) : Json × Json × Json :=
  let rt := getRawType d
  let tn0 : Json :=
    if optContains rt "tool" then
      jsonOr (d.getd "tool_name") (jsonOr (d.getd "toolName") (d.getd "name"))
    else .null
  let tb := d.getd "tool"
  let step1 : Json × Json × Json :=
    match tb with
    | .obj fs =>
      (jsonOr tn0 ((Json.obj fs).getd "name"),
       jsonOr ((Json.obj fs).getd "input") ((Json.obj fs).getd "arguments"),
       jsonOr ((Json.obj fs).getd "output") ((Json.obj fs).getd "result"))
    | _ => (tn0, .null, .null)
  let tn2 : Json :=
    if step1.1.isNullB then jsonOr (d.getd "tool_name") (d.getd "toolName")
    else step1.1
  let ti2 : Json :=
    if step1.2.1.isNullB then
      jsonOr (d.getd "tool_input") (jsonOr (d.getd "toolInput")
        (jsonOr (d.getd "input") (jsonOr (d.getd "arguments") (d.getd "params"))))
    else step1.2.1
  let to2 : Json :=
    if step1.2.2.isNullB then
      jsonOr (d.getd "tool_output") (jsonOr (d.getd "toolOutput")
        (jsonOr (d.getd "output") (d.getd "result")))
    else step1.2.2
  (tn2, ti2, to2)

/-- `if tool_name or tool_input or tool_output:` in `parse_message`. -/
def toolCond (d : Json) : Bool :=
  (toolTriple d).1.truthy || (toolTriple d).2.1.truthy || (toolTriple d).2.2.truthy

/-- The role/content merging in `parse_message`'s message-detection step:
`role = data.get("role")`, `content = data.get("content")`, both falling
back to a `message`-dict's members when present and the top-level value is
falsy. -/
def effectiveRoleContent (d : Json) : Json × Json :=
  let role := d.getd "role"
  let content := d.getd "content"
  match d.getd "message" with
  | .obj fs =>
    (jsonOr role ((Json.obj fs).getd "role"),
     jsonOr content ((Json.obj fs).getd "content"))
  | _ => (role, content)

/-- The error branch of `parse_message` (lines 122-139). -/
def mkErrorMsg (data : Json) : Message :=
  .msg { kind := "error", raw := data, event_type := getRawType data,
         error := errorTextOf data,
         status := strOr (statusOf data) (getRawType data),
         session_id := extractSessionId data }

/-- The `thread.` branch of `parse_message`. -/
def mkThreadEvent (data : Json) : Message :=
  .event { kind := "thread", event := data, event_type := getRawType data,
           status := statusOf data, session_id := extractSessionId data }

/-- The `turn.` branch of `parse_message`. -/
def mkTurnEvent (data : Json) : Message :=
  .event { kind := "turn", event := data, event_type := getRawType data,
           status := statusOf data, session_id := extractSessionId data }

/-- The log-like branch of `parse_message`. -/
def mkLogMsg (data : Json) : Message :=
  .msg { kind := "log", raw := data, event_type := getRawType data,
         text := extractText (jsonOr (data.getd "message")
           (jsonOr (data.getd "text")
             (jsonOr (data.getd "content") (data.getd "log")))),
         status := strOr (statusOf data) (getRawType data),
         session_id := extractSessionId data }

/-- The `item.completed`/`item.started` branch of `parse_message`
(lines 177-253). -/
def classifyItem (data : Json) : Message :=
  let item := data.getd "item"
  let itemTypeJ := jsonOr (item.getd "type") (item.getd "itemType")
  let item_status := asStrOpt (item.getd "status")
  let role := asStrOpt (item.getd "role")
  if memJ itemTypeJ ITEM_MESSAGE_TYPES || item.hasKey "text"
      || item.hasKey "content" then
    let inferred_role :=
      match role with
      | some r => some r
      | none =>
        if memJ itemTypeJ ASSISTANT_ITEM_TYPES then some "assistant"
        else if jeqStr itemTypeJ "user_message" then some "user"
        else none
    .msg { kind := "item", raw := data, event_type := getRawType data,
           item_type := asStrOpt itemTypeJ, role := inferred_role,
           text := extractText (jsonOr (item.getd "text") (item.getd "content")),
           status := strOr item_status (strOr (statusOf data) (getRawType data)),
           session_id := extractSessionId data }
  else if memJ itemTypeJ ITEM_TOOL_TYPES
      || (match asStrOpt itemTypeJ with
          | some t => strContains t "tool"
          | none => false) then
    let tool_name :=
      match asStrOpt (item.getd "name") with
      | some s => some s
      | none => asStrOpt itemTypeJ
    let tool_input : Option Json :=
      match item.getd "input" with
      | .obj fs => some (.obj fs)
      | _ =>
        let pairs :=
          (match item.getd "command" with
           | .null => []
           | v => [("command", v)])
          ++ (match item.getd "args" with
              | .null => []
              | v => [("args", v)])
        if pairs.isEmpty then none else some (.obj pairs)
    let tool_output := jsonOr (item.getd "output")
      (jsonOr (item.getd "result")
        (jsonOr (item.getd "aggregated_output") (item.getd "stdout")))
    .msg { kind := "tool", raw := data, event_type := getRawType data,
           item_type := asStrOpt itemTypeJ, tool_name := tool_name,
           tool_input := tool_input, tool_output := tool_output,
           status := strOr item_status (strOr (statusOf data) (getRawType data)),
           session_id := extractSessionId data }
  else
    .event { kind := "item", event := data, event_type := getRawType data,
             item_type := asStrOpt itemTypeJ,
             status := strOr item_status (strOr (statusOf data) (getRawType data)),
             session_id := extractSessionId data }

/-- The best-effort tool branch of `parse_message` (lines 282-292). -/
def mkToolMsg (data : Json) : Message :=
  .msg { kind := "tool", raw := data, event_type := getRawType data,
         tool_name := asStrOpt (toolTriple data).1,
         tool_input := asObjOpt (toolTriple data).2.1,
         tool_output := (toolTriple data).2.2,
         status := strOr (statusOf data) (getRawType data),
         session_id := extractSessionId data }

/-- The role-carrying message branch of `parse_message` (lines 302-311). -/
def mkRoleMsg (data : Json) (role_s : String) : Message :=
  .msg { kind := "item", raw := data, event_type := getRawType data,
         role := some role_s,
         text := extractText (effectiveRoleContent data).2,
         status := strOr (statusOf data) (getRawType data),
         session_id := extractSessionId data }

/-- The delta branch of `parse_message` (lines 314-324). -/
def mkDeltaMsg (data : Json) : Message :=
  let delta :=
    if !(data.getd "delta").isNullB then data.getd "delta"
    else data.getd "text"
  .msg { kind := "item", raw := data, event_type := getRawType data,
         item_type := some "delta", text := extractText delta,
         status := strOr (statusOf data) (getRawType data),
         session_id := extractSessionId data }

/-- The tail of `parse_message` after the tool branch: message detection,
delta detection, completion detection, raw fallback (lines 294-351). -/
def classifyTail (data : Json) : Message :=
  match (effectiveRoleContent data).1 with
  | .str role_s => mkRoleMsg data role_s
  | _ =>
    if optContains (getRawType data) "delta" || data.hasKey "delta" then
      mkDeltaMsg data
    else if optIn (getRawType data) FINAL_TYPES
        || (data.getd "final").isTrueB then
      .event { kind := "turn", event := data, event_type := getRawType data,
               status := strOr (statusOf data) (getRawType data),
               session_id := extractSessionId data }
    else if getRawType data = none
        ∧ optIn (statusOf data) FINAL_STATUSES = true then
      .event { kind := "turn", event := data, event_type := getRawType data,
               status := statusOf data, session_id := extractSessionId data }
    else
      .event { kind := "raw", event := data, event_type := getRawType data,
               status := statusOf data, session_id := extractSessionId data }

/-- The classification body of `message_parser.parse_message` (everything
after the `isinstance(data, dict)` check), branch for branch in source
priority order. -/
def classify (data : Json) : Message :=
  if isErrorShape data then mkErrorMsg data
  else if optStarts (getRawType data) "thread." then mkThreadEvent data
  else if optStarts (getRawType data) "turn." then mkTurnEvent data
  else if isLogType (getRawType data) then mkLogMsg data
  else if itemEventCond data then classifyItem data
  else if toolCond data then mkToolMsg data
  else classifyTail data

/-- The `MessageParseError` raised by `parse_message` on a non-dict input,
carrying its message and `data` attribute. -/
structure MessageParseErrorData where
  message : String
  dataAttr : Option Json

/-- `message_parser.parse_message`: the `isinstance(data, dict)` guard, then
`classify`. -/
def parse_message (data : Json) : Except MessageParseErrorData Message :=
  if data.isObjB then .ok (classify data)
  else
    .error { message := "Invalid message data type (expected dict, got "
               ++ pyTypeName data ++ ")",
             dataAttr := none }

/-- The raw-dict part of `message_parser.default_final_event_predicate`
(everything after the error-kind short-circuit). -/
def finalRaw (raw : Json) : Bool :=
  let raw_type := getRawType raw
  let status := statusOf raw
  if optIn raw_type FINAL_TYPES || (raw.getd "final").isTrueB then true
  else if optStarts raw_type "turn."
      && (strEnds (raw_type.getD "") "completed" || optIn status FINAL_STATUSES) then
    true
  else if optStarts raw_type "item." || optStarts raw_type "thread." then false
  else if optIn status FINAL_STATUSES && raw_type = none then true
  else false

/-- `message_parser.default_final_event_predicate`. -/
def default_final_event_predicate : Message → Bool
  | .msg m => if m.kind = "error" then true else finalRaw m.raw
  | .event e => finalRaw e.event

/-- Generic first-match association-list lookup (Python dict lookup). -/
def lookupPair {α : Type} : List (String × α) → String → Option α
  | [], _ => none
  | (k, v) :: rest, key => if k = key then some v else lookupPair rest key

/-- `types.ApprovalDecision = Literal["allow", "deny", "defer"]`. -/
inductive ApprovalDecision where
  | allow
  | deny
  | defer
deriving DecidableEq

/-- `app_server_client._APPROVAL_DECISION_MAP`, in source order. -/
def APPROVAL_DECISION_MAP : List (String × String) :=
  [("allow", "accept"), ("accept", "accept"), ("approve", "accept"),
   ("approved", "accept"), ("yes", "accept"), ("y", "accept"),
   ("deny", "deny"), ("denied", "deny"), ("reject", "deny"),
   ("rejected", "deny"), ("block", "deny"), ("no", "deny"), ("n", "deny"),
   ("defer", "defer"), ("default", "defer"), ("fallback", "defer"),
   ("ask", "defer")]

/-- Byte-wise comparison on char lists, mirroring Python string ordering
for the ASCII keys being sorted. -/
def charListLe : List Char → List Char → Bool
  | [], _ => true
  | _ :: _, [] => false
  | a :: as, b :: bs =>
    if a.toNat < b.toNat then true
    else if b.toNat < a.toNat then false
    else charListLe as bs

/-- Insertion into a sorted list of strings. -/
def insSorted (s : String) : List String → List String
  | [] => [s]
  | t :: ts => if charListLe s.toList t.toList then s :: t :: ts else t :: insSorted s ts

/-- Python `sorted` on a list of strings. -/
def pySorted (l : List String) : List String := l.foldr insSorted []

/-- `sorted(_APPROVAL_DECISION_MAP)`: the accepted approval vocabulary
named by the approval-decision error. -/
def approvalVocab : List String := pySorted (APPROVAL_DECISION_MAP.map Prod.fst)

/-- The exceptions of `_errors.py` that the engine can raise, modelled
structurally. -/
inductive SdkErr where
  | requestTimeout (method : String) (timeoutSeconds : ℚ)
  | protocolStream (message : String) (method : Option String) (payload : Option Json)
  | cliConnection (message : String)
  | approvalDecision (callbackName : String) (vocab : List String) (got : String)
  | approvalType (callbackName : String) (typeName : String)
  | typeError (message : String)
  | keyError

/-- `%.2f`-style rendering of a rational, used only inside `str()` of a
`RequestTimeoutError`; approximates CPython float formatting. -/
def ratFmt2 (q : ℚ) : String :=
  let c : Int := Int.floor (q * 100 + 1 / 2)
  let neg := c < 0
  let n := c.natAbs
  (if neg then "-" else "") ++ toString (n / 100) ++ "."
    ++ (if n % 100 < 10 then "0" else "") ++ toString (n % 100)

/-- Python `str(e)` for each modelled exception, following the message
formats in `_errors.py` and the raise sites. -/
def sdkErrStr : SdkErr → String
  | .requestTimeout m t =>
    "Timed out waiting for app-server response for " ++ squote ++ m ++ squote
      ++ " after " ++ ratFmt2 t ++ "s."
  | .protocolStream msg _ _ => msg
  | .cliConnection m => m
  | .approvalDecision cb vocab got =>
    cb ++ " must return one of " ++ pyRepr (.arr (vocab.map .str)) ++ "; got "
      ++ squote ++ got ++ squote ++ "."
  | .approvalType cb ty => cb ++ " must return str, dict, or None; got " ++ ty ++ "."
  | .typeError m => m
  | .keyError => "KeyError"

/-- The value an approval / user-input callback can return
(`str | dict | None | anything-else`), with the coroutine layer already
awaited. -/
inductive CallbackResult where
  | str (s : String)
  | dict (j : Json)
  | noneR
  | other (typeName : String)

/-- A registered dynamic tool (`types.CodexTool`): the handler either
returns a value or raises (modelled as `Except` with `str(e)`). -/
structure DynTool where
  handler : Json → Except String Json

/-- The slice of `types.CodexAgentOptions` the engine reads, with the same
defaults. -/
structure OptionsModel where
  askForApproval : Option String := none
  approvalCallbacks : List (String × (Json → CallbackResult)) := []
  approveCommand : Option (Json → CallbackResult) := none
  approveFileChange : Option (Json → CallbackResult) := none
  requestUserInputCallback : Option (Json → CallbackResult) := none
  provideToolInput : Option (Json → CallbackResult) := none
  appServerRequestTimeoutSeconds : Option ℚ := some 30

/-- `AppServerClient._request_timeout`: `None` and non-positive configured
timeouts disable the bound. -/
def requestTimeoutOpt (t : Option ℚ) : Option ℚ :=
  match t with
  | none => none
  | some v => if v ≤ 0 then none else some v

/-- `AppServerClient._normalize_approval_decision`. -/
def normalizeApprovalDecision (raw : String) (callbackName : String) :
    Except SdkErr ApprovalDecision :=
  match lookupPair APPROVAL_DECISION_MAP (pyLower (pyStrip raw)) with
  | none => .error (.approvalDecision callbackName approvalVocab raw)
  | some normalized =>
    if normalized = "accept" then .ok .allow
    else if normalized = "deny" then .ok .deny
    else .ok .defer

/-- `AppServerClient._fallback_decision_from_policy`. -/
def fallbackDecisionFromPolicy (policy : Option String) : ApprovalDecision :=
  if policy = some "never" then .allow
  else if optIn policy ["untrusted", "on-failure", "on-request"] then .deny
  else .deny

/-- `AppServerClient._resolve_approval_decision`: either a resolved
`allow`/`deny`/`defer` or a verbatim dict passthrough. -/
def resolveApprovalDecision (opts : OptionsModel) (kind : String)
    (params : Json) (callbackName : String) :
    Except SdkErr (ApprovalDecision ⊕ Json) :=
  let callback : Option (Json → CallbackResult) :=
    if kind = "command" then
      match lookupPair opts.approvalCallbacks "command" with
      | some cb => some cb
      | none =>
        match lookupPair opts.approvalCallbacks "command_execution" with
        | some cb => some cb
        | none => opts.approveCommand
    else if kind = "file_change" then
      match lookupPair opts.approvalCallbacks "file_change" with
      | some cb => some cb
      | none =>
        match lookupPair opts.approvalCallbacks "fileChange" with
        | some cb => some cb
        | none => opts.approveFileChange
    else none
  match callback with
  | none => .ok (.inl (fallbackDecisionFromPolicy opts.askForApproval))
  | some cb =>
    match cb params with
    | .dict j => .ok (.inr j)
    | .noneR => .ok (.inl (fallbackDecisionFromPolicy opts.askForApproval))
    | .str s =>
      match normalizeApprovalDecision s callbackName with
      | .error e => .error e
      | .ok d =>
        if d = .defer then .ok (.inl (fallbackDecisionFromPolicy opts.askForApproval))
        else .ok (.inl d)
    | .other ty => .error (.approvalType callbackName ty)

/-- `AppServerClient._handle_command_approval`. -/
def handleCommandApproval (opts : OptionsModel) (params : Json) :
    Except SdkErr Json :=
  match resolveApprovalDecision opts "command" params "command approval callback" with
  | .error e => .error e
  | .ok (.inr j) => .ok j
  | .ok (.inl d) =>
    .ok (.obj [("decision", .str (if d = .allow then "accept" else "deny"))])

/-- `AppServerClient._handle_file_change_approval`. -/
def handleFileChangeApproval (opts : OptionsModel) (params : Json) :
    Except SdkErr Json :=
  match resolveApprovalDecision opts "file_change" params
      "file change approval callback" with
  | .error e => .error e
  | .ok (.inr j) => .ok j
  | .ok (.inl d) =>
    .ok (.obj [("decision", .str (if d = .allow then "accept" else "deny"))])

/-- `AppServerClient._handle_legacy_approval`. -/
def handleLegacyApproval (opts : OptionsModel) (method : String) (params : Json) :
    Except SdkErr Json :=
  let kind := if method = "execCommandApproval" then "command" else "file_change"
  let callbackName := method ++ " approval callback"
  match resolveApprovalDecision opts kind params callbackName with
  | .error e => .error e
  | .ok (.inr j) => .ok j
  | .ok (.inl d) =>
    .ok (.obj [("decision", .str (if d = .allow then "approved" else "denied"))])

/-- `json.dumps(..., ensure_ascii=False)` on a JSON value (string escaping
is not reproduced; no theorem depends on it). -/
def jsonDumps : Json → String
  | .null => "null"
  | .bool true => "true"
  | .bool false => "false"
  | .num n => toString n
  | .str s => "\"" ++ s ++ "\""
  | .arr xs =>
    "[" ++ String.intercalate ", " (xs.attach.map (fun x => jsonDumps x.1)) ++ "]"
  | .obj fs =>
    "\x7b" ++ String.intercalate ", " (fs.attach.map (fun p =>
      match hp : p.1 with
      | (k, v) => "\"" ++ k ++ "\"" ++ ": " ++ jsonDumps v)) ++ "\x7d"
termination_by j => sizeOf j
decreasing_by
  · have h1 := List.sizeOf_lt_of_mem x.2
    simp
    omega
  · have h1 := List.sizeOf_lt_of_mem p.2
    simp [hp] at h1
    simp
    omega

/-- `AppServerClient._normalize_tool_output`. -/
def normalizeToolOutput (result : Json) : String :=
  match result with
  | .str s => s
  | .obj fs =>
    if (Json.obj fs).hasKey "content" then
      let content := (Json.obj fs).getD "content" (.arr [])
      let parts :=
        match content with
        | .arr items =>
          items.foldr (fun item acc =>
            if jeqStr (item.getd "type") "text" then
              match item.getd "text" with
              | .str t => t :: acc
              | _ => acc
            else acc) []
        | _ => []
      if parts.isEmpty then jsonDumps (.obj fs)
      else String.intercalate "\n" parts
    else jsonDumps (.obj fs)
  | j => jsonDumps j

/-- `AppServerClient._handle_dynamic_tool_call`. -/
def handleDynamicToolCall (toolMap : List (String × DynTool)) (params : Json) :
    Except SdkErr Json :=
  match params.getd "tool" with
  | .str name =>
    match lookupPair toolMap name with
    | none =>
      .ok (.obj [("success", .bool false),
                 ("output", .str ("Unknown tool: " ++ name))])
    | some tool =>
      let args :=
        match params.getd "arguments" with
        | .obj fs => Json.obj fs
        | _ => Json.obj []
      match tool.handler args with
      | .ok result =>
        .ok (.obj [("success", .bool true),
                   ("output", .str (normalizeToolOutput result))])
      | .error e =>
        .ok (.obj [("success", .bool false), ("output", .str e)])
  | _ => .error (.cliConnection "Dynamic tool call missing tool name")

/-- `AppServerClient._handle_tool_user_input`. -/
def handleToolUserInput (opts : OptionsModel) (params : Json) :
    Except SdkErr Json :=
  let callback :=
    match opts.requestUserInputCallback with
    | some cb => some cb
    | none => opts.provideToolInput
  match callback with
  | none => .ok (.obj [("answers", .obj [])])
  | some cb =>
    match cb params with
    | .dict j => .ok (.obj [("answers", j)])
    | .str s =>
      let questionId :=
        match jsonOr (params.getd "questionId") (.str "question") with
        | .str q => q
        | v => pyStr v
      .ok (.obj [("answers", .obj [(questionId,
            .obj [("answers", .arr [.str s])])])])
    | .noneR =>
      .error (.typeError
        "request_user_input_callback must return str or dict, got NoneType.")
    | .other ty =>
      .error (.typeError
        ("request_user_input_callback must return str or dict, got " ++ ty ++ "."))

/-- The params extraction of `AppServerClient._handle_server_request`:
`params_obj if isinstance(params_obj, dict) else {}`. -/
def paramsOf (msg : Json) : Json :=
  match msg.getd "params" with
  | .obj fs => Json.obj fs
  | _ => Json.obj []

/-- `AppServerClient._handle_server_request`: routes one server-initiated
request frame to its typed handler and returns the reply frame written
back (handler exceptions become `-32603` error envelopes, unknown methods
`-32601`). -/
def handleServerRequest (opts : OptionsModel) (toolMap : List (String × DynTool))
    (msg : Json) : Json :=
  let requestId := pyStr (msg.getd "id")
  let method := msg.getd "method"
  let params := paramsOf msg
  let outcome : Option (Except SdkErr Json) :=
    if jeqStr method "item/tool/call" then
      some (handleDynamicToolCall toolMap params)
    else if jeqStr method "item/tool/requestUserInput" then
      some (handleToolUserInput opts params)
    else if jeqStr method "item/commandExecution/requestApproval" then
      some (handleCommandApproval opts params)
    else if jeqStr method "item/fileChange/requestApproval" then
      some (handleFileChangeApproval opts params)
    else if jeqStr method "execCommandApproval" || jeqStr method "applyPatchApproval" then
      some (handleLegacyApproval opts (pyStr method) params)
    else none
  match outcome with
  | some (.ok result) => .obj [("id", .str requestId), ("result", result)]
  | some (.error e) =>
    .obj [("id", .str requestId),
          ("error", .obj [("code", .num (-32603)), ("message", .str (sdkErrStr e))])]
  | none =>
    .obj [("id", .str requestId),
          ("error", .obj [("code", .num (-32601)),
                          ("message", .str ("Method " ++ pyStr method
                            ++ " not supported"))])]

/-- A value stored in `AppServerClient._pending_results`: either a reply's
result payload or an exception to re-raise in the waiting sender. -/
inductive PendingResult where
  | res (result : Json)
  | exn (e : SdkErr)

/-- The request-correlation state of one `AppServerClient`: the id counter,
the pending-request table (`_pending`, keyed by id) and the result table
(`_pending_results`). -/
structure ClientState where
  requestCounter : Nat
  pending : List String
  pendingResults : List (String × PendingResult)

/-- Python dict assignment `d[k] = v` on the result table. -/
def dictSet (l : List (String × PendingResult)) (k : String) (v : PendingResult) :
    List (String × PendingResult) :=
  l.filter (fun p => p.1 ≠ k) ++ [(k, v)]

/-- The registration prefix of `AppServerClient._send_request`: allocate a
fresh id `req_{n}`, register the pending entry, build the payload. -/
def registerRequest (st : ClientState) (method : String) (params : Option Json) :
    String × Json × ClientState :=
  let counter := st.requestCounter + 1
  let requestId := "req_" ++ toString counter
  let payload : Json := .obj ([("id", .str requestId), ("method", .str method)]
    ++ (match params with
        | some p => [("params", p)]
        | none => []))
  (requestId, payload,
   { requestCounter := counter, pending := st.pending ++ [requestId],
     pendingResults := st.pendingResults })

/-- `AppServerClient._send_request` in the run where no reply bearing the
fresh id arrives within the (positive) timeout: register, then take the
`TimeoutError` branch — deregister both tables and raise
`RequestTimeoutError(method, timeout)`. -/
def sendRequestTimedOut (st : ClientState) (method : String) (t : ℚ) :
    ClientState × SdkErr :=
  let reg := registerRequest st method none
  let requestId := reg.1
  let st1 := reg.2.2
  ({ st1 with pending := st1.pending.filter (fun x => x ≠ requestId),
              pendingResults := st1.pendingResults.filter (fun p => p.1 ≠ requestId) },
   .requestTimeout method t)

/-- What `AppServerClient._read_loop` does with one reply frame (a frame
with `id` and `result`-or-`error`): an unknown id is logged and dropped;
otherwise the result or a wrapped `ProtocolStreamError` is stored and the
waiter's event is set. -/
inductive ReplyAction where
  | droppedUnexpected (requestId : String)
  | completed (requestId : String)
deriving DecidableEq

/-- The reply-dispatch branch of `AppServerClient._read_loop`. -/
def handleReply (st : ClientState) (msg : Json) : ClientState × ReplyAction :=
  let requestId := pyStr (msg.getd "id")
  if requestId ∈ st.pending then
    if msg.hasKey "error" then
      ({ st with
          pendingResults := dictSet st.pendingResults requestId
            (.exn (.protocolStream "App-server returned an error response."
              (asStrOpt (msg.getd "method")) (asObjOpt (msg.getd "error")))) },
       .completed requestId)
    else
      ({ st with
          pendingResults := dictSet st.pendingResults requestId
            (.res (msg.getD "result" (.obj []))) },
       .completed requestId)
  else (st, .droppedUnexpected requestId)

/-- The completion suffix of `AppServerClient._send_request`, entered once
the pending event fires: pop the stored result and the pending entry, then
re-raise a stored exception or return the result payload. -/
def completeRequest (st : ClientState) (requestId : String) :
    ClientState × Except SdkErr Json :=
  match lookupPair st.pendingResults requestId with
  | none => (st, .error .keyError)
  | some r =>
    let st2 := { st with
      pendingResults := st.pendingResults.filter (fun p => p.1 ≠ requestId),
      pending := st.pending.filter (fun x => x ≠ requestId) }
    match r with
    | .res j => (st2, .ok j)
    | .exn e => (st2, .error e)

/-- The buffering state of `SubprocessCLITransport._read_messages_impl`:
the partially accumulated JSON text and the objects yielded so far. -/
structure ReadAcc where
  buffer : String
  yields : List Json

/-- The failure raised by the framing loop when the accumulated text
exceeds the configured maximum buffer size (`CLIJSONDecodeError` wrapping
the oversized length and the limit). -/
inductive ReadFailure where
  | bufferOverflow (length limit : Nat)
deriving DecidableEq

/-- One iteration of the inner line loop of
`SubprocessCLITransport._read_messages_impl`, parameterised by the
`json.loads` oracle `decode` (decode failure = `json.JSONDecodeError`).
`Except.error` models the raised `CLIJSONDecodeError` terminating the
sequence. -/
def processJsonLine (decode : String → Option Json) (maxBuf : Nat)
    (acc : ReadAcc) (line : String) : Except (ReadAcc × ReadFailure) ReadAcc :=
  let jsonLine := pyStrip line
  if jsonLine = "" then .ok acc
  else if strStarts jsonLine "\x7b" = false ∧ acc.buffer = "" then .ok acc
  else if strStarts jsonLine "\x7b" = false ∧ acc.buffer ≠ "" then
    .ok { acc with buffer := "" }
  else
    let buf := acc.buffer ++ jsonLine
    if buf.length > maxBuf then
      .error ({ buffer := "", yields := acc.yields },
              .bufferOverflow buf.length maxBuf)
    else
      match decode buf with
      | some data => .ok { buffer := "", yields := acc.yields ++ [data] }
      | none => .ok { acc with buffer := buf }

/-- The inner line loop of `_read_messages_impl` over a whole line
sequence; a raised `CLIJSONDecodeError` stops the loop. -/
def processLines (decode : String → Option Json) (maxBuf : Nat) :
    ReadAcc → List String → ReadAcc × Option ReadFailure
  | acc, [] => (acc, none)
  | acc, l :: rest =>
    match processJsonLine decode maxBuf acc l with
    | .ok acc2 => processLines decode maxBuf acc2 rest
    | .error (acc2, f) => (acc2, some f)

/-- `query._CONTROL_KEY` and `app_server_client._CONTROL_KEY`. -/
def CONTROL_KEY : String := "__codex_agent_sdk_control__"

/-- Whether a queued frame triggers control behaviour `v` in
`Query.receive_messages` (`message.get(_CONTROL_KEY) == v`). -/
def isCtl (m : Json) (v : String) : Bool := jeqStr (m.getd CONTROL_KEY) v

/-- How the iterator of `Query.receive_messages` terminates. -/
inductive StreamEnd where
  | exhausted
  | ended
  | raised (errorValue : Json)

/-- `Query.receive_messages` over the queue contents: yield frames until a
control `end` (silent stop) or control `error` (raise a
`ProtocolStreamError` carrying `message.get("error", "Unknown error")`);
an exhausted queue just ends the iteration. -/
def receiveMessages : List Json → List Json × StreamEnd
  | [] => ([], .exhausted)
  | m :: rest =>
    if isCtl m "end" then ([], .ended)
    else if isCtl m "error" then ([], .raised (m.getD "error" (.str "Unknown error")))
    else
      let tail := receiveMessages rest
      (m :: tail.1, tail.2)

/-! Helper lemmas (shared; not claim theorems). -/

theorem lookupPair_filter_pred_none {α : Type} (pred : String → Bool)
    (l : List (String × α)) (k : String) (hk : pred k = false) :
    lookupPair (l.filter (fun p => pred p.1)) k = none := by
  induction l with
  | nil => rfl
  | cons p rest ih =>
    cases hp : pred p.1 with
    | false => simpa [List.filter_cons, hp] using ih
    | true =>
      have hne : p.1 ≠ k := by
        intro he
        rw [he, hk] at hp
        cases hp
      simp [List.filter_cons, hp, lookupPair, hne, ih]

theorem lookupPair_filter_pred_other {α : Type} (pred : String → Bool)
    (l : List (String × α)) (other : String) (ho : pred other = true) :
    lookupPair (l.filter (fun p => pred p.1)) other = lookupPair l other := by
  induction l with
  | nil => rfl
  | cons p rest ih =>
    cases hp : pred p.1 with
    | true =>
      by_cases hpo : p.1 = other
      · simp [List.filter_cons, hp, lookupPair, hpo, ho]
      · simp [List.filter_cons, hp, lookupPair, hpo, ih]
    | false =>
      have hpo : p.1 ≠ other := by
        intro he
        rw [he, ho] at hp
        cases hp
      simp [List.filter_cons, hp, lookupPair, hpo, ih]

theorem lookupPair_filter_ne {α : Type} (l : List (String × α)) (k : String) :
    lookupPair (l.filter (fun p => p.1 ≠ k)) k = none :=
  lookupPair_filter_pred_none (fun x => decide (x ≠ k)) l k (by simp)

theorem lookupPair_filter_other {α : Type} (l : List (String × α))
    (k other : String) (h : other ≠ k) :
    lookupPair (l.filter (fun p => p.1 ≠ k)) other = lookupPair l other :=
  lookupPair_filter_pred_other (fun x => decide (x ≠ k)) l other (by simp [h])

theorem lookupPair_append_left {α : Type} (l1 l2 : List (String × α))
    (k : String) (h : lookupPair l1 k = none) :
    lookupPair (l1 ++ l2) k = lookupPair l2 k := by
  induction l1 with
  | nil => rfl
  | cons p rest ih =>
    by_cases hp : p.1 = k
    · simp [lookupPair, hp] at h
    · simp [lookupPair, hp] at h ⊢
      exact ih h

theorem lookupPair_dictSet_self (l : List (String × PendingResult))
    (k : String) (v : PendingResult) :
    lookupPair (dictSet l k v) k = some v := by
  unfold dictSet
  rw [lookupPair_append_left _ _ _ (lookupPair_filter_ne l k)]
  simp [lookupPair]

theorem ne_empty_of_strStarts {t p : String} (hp : p.toList ≠ [])
    (h : strStarts t p = true) : t ≠ "" := by
  intro he
  subst he
  have h' := List.isPrefixOf_iff_prefix.mp h
  have : p.toList = [] := List.prefix_nil.mp h'
  exact hp this

theorem strStarts_conflict {t : String} (p q : String)
    (h1 : p.toList.isPrefixOf q.toList = false)
    (h2 : q.toList.isPrefixOf p.toList = false)
    (hp : strStarts t p = true) : strStarts t q = false := by
  cases hq : strStarts t q with
  | false => rfl
  | true =>
    exfalso
    have hp' := List.isPrefixOf_iff_prefix.mp hp
    have hq' := List.isPrefixOf_iff_prefix.mp hq
    rcases List.prefix_or_prefix_of_prefix hp' hq' with h | h
    · rw [List.isPrefixOf_iff_prefix.mpr h] at h1
      cases h1
    · rw [List.isPrefixOf_iff_prefix.mpr h] at h2
      cases h2

/-! Claim C4. -/

/-- C4: approval-decision normalization: a callback returning `"approved"`
under policy `never` yields wire decision `accept`; returning `"defer"`
under `never` yields `accept`; returning `"defer"` under `on-request`
yields `deny`; and returning the unrecognized string `"maybe"` raises an
approval-decision error naming the accepted vocabulary — for both the
command and the file-change approval handlers. -/
theorem approval_alias_normalization :
    (handleCommandApproval
        { askForApproval := some "never",
          approvalCallbacks := [("command", fun _ => CallbackResult.str "approved")] }
        (.obj [("command", .str "ls")])
      = .ok (.obj [("decision", .str "accept")]))
    ∧ (handleCommandApproval
        { askForApproval := some "never",
          approvalCallbacks := [("command", fun _ => CallbackResult.str "defer")] }
        (.obj [("command", .str "ls")])
      = .ok (.obj [("decision", .str "accept")]))
    ∧ (handleCommandApproval
        { askForApproval := some "on-request",
          approvalCallbacks := [("command", fun _ => CallbackResult.str "defer")] }
        (.obj [("command", .str "ls")])
      = .ok (.obj [("decision", .str "deny")]))
    ∧ (handleCommandApproval
        { askForApproval := some "never",
          approvalCallbacks := [("command", fun _ => CallbackResult.str "maybe")] }
        (.obj [("command", .str "ls")])
      = .error (.approvalDecision "command approval callback" approvalVocab "maybe"))
    ∧ (handleFileChangeApproval
        { askForApproval := some "never",
          approvalCallbacks := [("file_change", fun _ => CallbackResult.str "approved")] }
        (.obj [])
      = .ok (.obj [("decision", .str "accept")]))
    ∧ (handleFileChangeApproval
        { askForApproval := some "never",
          approvalCallbacks := [("file_change", fun _ => CallbackResult.str "defer")] }
        (.obj [])
      = .ok (.obj [("decision", .str "accept")]))
    ∧ (handleFileChangeApproval
        { askForApproval := some "on-request",
          approvalCallbacks := [("file_change", fun _ => CallbackResult.str "defer")] }
        (.obj [])
      = .ok (.obj [("decision", .str "deny")]))
    ∧ (handleFileChangeApproval
        { askForApproval := some "never",
          approvalCallbacks := [("file_change", fun _ => CallbackResult.str "maybe")] }
        (.obj [])
      = .error (.approvalDecision "file change approval callback" approvalVocab "maybe")) :=
  ⟨rfl, rfl, rfl, rfl, rfl, rfl, rfl, rfl⟩

/-! Claim C6. -/

/-- C6: a server-initiated `item/tool/call` naming a tool absent from the
registered dynamic-tool map is answered with a protocol-level `result`
envelope (never an `error` envelope) whose payload marks failure and names
the unknown tool. -/
theorem unknown_tool_reply_is_result_envelope
    (opts : OptionsModel) (toolMap : List (String × DynTool)) (msg : Json)
    (name : String)
    (hm : msg.getd "method" = .str "item/tool/call")
    (ht : (paramsOf msg).getd "tool" = .str name)
    (hl : lookupPair toolMap name = none) :
    handleServerRequest opts toolMap msg
      = .obj [("id", .str (pyStr (msg.getd "id"))),
              ("result", .obj [("success", .bool false),
                               ("output", .str ("Unknown tool: " ++ name))])]
    ∧ (handleServerRequest opts toolMap msg).hasKey "error" = false
    ∧ (handleServerRequest opts toolMap msg).hasKey "result" = true := by
  have hreply : handleServerRequest opts toolMap msg
      = .obj [("id", .str (pyStr (msg.getd "id"))),
              ("result", .obj [("success", .bool false),
                               ("output", .str ("Unknown tool: " ++ name))])] := by
    simp only [handleServerRequest, hm, jeqStr, handleDynamicToolCall, ht, hl]
    rfl
  refine ⟨hreply, ?_, ?_⟩
  · rw [hreply]; rfl
  · rw [hreply]; rfl

/-- C6 witness: the unknown-tool reply at a concrete frame. -/
theorem unknown_tool_reply_witness :
    handleServerRequest {} []
        (.obj [("id", .str "7"), ("method", .str "item/tool/call"),
               ("params", .obj [("tool", .str "mystery")])])
      = .obj [("id", .str "7"),
              ("result", .obj [("success", .bool false),
                               ("output", .str "Unknown tool: mystery")])] :=
  (unknown_tool_reply_is_result_envelope {} []
    (.obj [("id", .str "7"), ("method", .str "item/tool/call"),
           ("params", .obj [("tool", .str "mystery")])])
    "mystery" rfl rfl rfl).1

/-! Claim C7 (corrected). -/

/-- C7 counterexample: a blank line is "a line not starting with a brace",
yet read while the partial buffer is non-empty it does NOT discard the
buffer — the blank-line skip fires before the brace checks, so the claim
as stated is false. -/
theorem blank_line_keeps_partial_buffer :
    strStarts (pyStrip "") "\x7b" = false
    ∧ ("\x7bpartial" : String) ≠ ""
    ∧ processJsonLine (fun _ => none) 1000
        { buffer := "\x7bpartial", yields := [] } ""
      = .ok { buffer := "\x7bpartial", yields := [] } :=
  ⟨rfl, by decide, rfl⟩

/-- C7 amended: in the subprocess stdout framing, a NON-BLANK line not
starting with a brace is skipped while the buffer is empty, discards the
buffered partial object while the buffer is non-empty, and a subsequent
well-formed JSON object line is still parsed and yielded correctly. -/
theorem non_json_line_framing :
    (∀ (decode : String → Option Json) (maxBuf : Nat) (acc : ReadAcc) (l : String),
      pyStrip l ≠ "" → strStarts (pyStrip l) "\x7b" = false → acc.buffer = "" →
      processJsonLine decode maxBuf acc l = .ok acc)
    ∧ (∀ (decode : String → Option Json) (maxBuf : Nat) (acc : ReadAcc) (l : String),
      pyStrip l ≠ "" → strStarts (pyStrip l) "\x7b" = false → acc.buffer ≠ "" →
      processJsonLine decode maxBuf acc l = .ok { buffer := "", yields := acc.yields })
    ∧ (∀ (decode : String → Option Json) (maxBuf : Nat) (p bad good : String) (v : Json),
      pyStrip p = p → strStarts p "\x7b" = true → p.length ≤ maxBuf →
      decode p = none →
      pyStrip bad = bad → bad ≠ "" → strStarts bad "\x7b" = false →
      pyStrip good = good → strStarts good "\x7b" = true → good.length ≤ maxBuf →
      decode good = some v →
      processLines decode maxBuf { buffer := "", yields := [] } [p, bad, good]
        = ({ buffer := "", yields := [v] }, none)) := by
  refine ⟨?_, ?_, ?_⟩
  · intro decode maxBuf acc l h1 h2 h3
    simp only [processJsonLine]
    rw [if_neg h1, if_pos ⟨h2, h3⟩]
  · intro decode maxBuf acc l h1 h2 h3
    simp only [processJsonLine]
    rw [if_neg h1, if_neg (fun hc => h3 hc.2), if_pos ⟨h2, h3⟩]
  · intro decode maxBuf p bad good v hps hsp hple hdp hbs hbne hsb hgs hsg hgle hdg
    have hpne : p ≠ "" := ne_empty_of_strStarts (by decide) hsp
    have e1 : ("" : String) ++ p = p := rfl
    have e2 : ("" : String) ++ good = good := rfl
    have s1 : processJsonLine decode maxBuf { buffer := "", yields := [] } p
        = .ok { buffer := p, yields := [] } := by
      simp only [processJsonLine, hps, e1]
      rw [if_neg hpne, if_neg (fun hc => by simp [hsp] at hc),
        if_neg (fun hc => by simp [hsp] at hc), if_neg (by omega), hdp]
    have s2 : processJsonLine decode maxBuf { buffer := p, yields := [] } bad
        = .ok { buffer := "", yields := [] } := by
      simp only [processJsonLine, hbs]
      rw [if_neg hbne, if_neg (fun hc => hpne hc.2), if_pos ⟨hsb, hpne⟩]
    have s3 : processJsonLine decode maxBuf { buffer := "", yields := [] } good
        = .ok { buffer := "", yields := [v] } := by
      simp only [processJsonLine, hgs, e2]
      rw [if_neg (ne_empty_of_strStarts (by decide) hsg),
        if_neg (fun hc => by simp [hsg] at hc),
        if_neg (fun hc => by simp [hsg] at hc), if_neg (by omega), hdg]
      rfl
    simp [processLines, s1, s2, s3]

/-- C7 witness: the three amended conclusions at concrete lines and a
concrete decode oracle. -/
theorem non_json_line_framing_witness :
    processJsonLine (fun _ => none) 100 { buffer := "", yields := [] } "noise"
      = .ok { buffer := "", yields := [] }
    ∧ processJsonLine (fun _ => none) 100 { buffer := "\x7bpar", yields := [] } "noise"
      = .ok { buffer := "", yields := [] }
    ∧ processLines
        (fun s => if s = "\x7ba\x7d" then some (.obj [("a", .num 1)]) else none) 100
        { buffer := "", yields := [] } ["\x7bpar", "noise", "\x7ba\x7d"]
      = ({ buffer := "", yields := [.obj [("a", .num 1)]] }, none) := by
  refine ⟨?_, ?_, ?_⟩
  · exact non_json_line_framing.1 (fun _ => none) 100 _ "noise" (by decide) (by decide) rfl
  · exact non_json_line_framing.2.1 (fun _ => none) 100 _ "noise" (by decide) (by decide)
      (by decide)
  · exact non_json_line_framing.2.2
      (fun s => if s = "\x7ba\x7d" then some (.obj [("a", .num 1)]) else none) 100
      "\x7bpar" "noise" "\x7ba\x7d" (.obj [("a", .num 1)])
      rfl (by decide) (by decide) rfl rfl (by decide) (by decide) rfl (by decide)
      (by decide) rfl

/-! Claim C8. -/

/-- C8: when the accumulated partial-JSON buffer would exceed the
configured maximum size, the framing loop clears the buffer, fails the
read sequence with a decode error carrying the oversized length and the
limit, and yields nothing further (no corrupt object). -/
theorem oversized_buffer_decode_error
    (decode : String → Option Json) (maxBuf : Nat) (acc : ReadAcc) (l : String)
    (rest : List String)
    (hls : pyStrip l = l) (hstart : strStarts l "\x7b" = true)
    (hover : (acc.buffer ++ l).length > maxBuf) :
    processJsonLine decode maxBuf acc l
      = .error ({ buffer := "", yields := acc.yields },
                .bufferOverflow (acc.buffer ++ l).length maxBuf)
    ∧ processLines decode maxBuf acc (l :: rest)
      = ({ buffer := "", yields := acc.yields },
         some (.bufferOverflow (acc.buffer ++ l).length maxBuf)) := by
  have hlne : l ≠ "" := ne_empty_of_strStarts (by decide) hstart
  have h1 : processJsonLine decode maxBuf acc l
      = .error ({ buffer := "", yields := acc.yields },
                .bufferOverflow (acc.buffer ++ l).length maxBuf) := by
    simp only [processJsonLine, hls]
    rw [if_neg hlne, if_neg (fun hc => by simp [hstart] at hc),
      if_neg (fun hc => by simp [hstart] at hc), if_pos hover]
  exact ⟨h1, by simp [processLines, h1]⟩

/-- C8 witness: the overflow outcome at a concrete line and limit. -/
theorem oversized_buffer_decode_error_witness :
    processLines (fun _ => none) 3 { buffer := "", yields := [] } ["\x7b1234", "x"]
      = ({ buffer := "", yields := [] }, some (.bufferOverflow 5 3)) :=
  (oversized_buffer_decode_error (fun _ => none) 3 { buffer := "", yields := [] }
    "\x7b1234" ["x"] rfl (by decide) (by decide)).2

/-! Claim C10 (corrected). -/

/-- C10 counterexample: a transport frame that contains the reserved
control key with a value other than `end`/`error` is NOT consumed as a
control marker — `receive_messages` yields it to the consumer, so the
claim as stated is false. -/
theorem control_key_frame_other_value_yielded :
    (Json.obj [(CONTROL_KEY, .str "shutdown")]).hasKey CONTROL_KEY = true
    ∧ receiveMessages [.obj [(CONTROL_KEY, .str "shutdown")],
                       .obj [(CONTROL_KEY, .str "end")]]
      = ([.obj [(CONTROL_KEY, .str "shutdown")]], .ended) :=
  ⟨rfl, rfl⟩

/-- C10 amended: `receive_messages` yields exactly the queued frames
preceding the first frame whose reserved control key holds `"end"` or
`"error"`, in arrival order; an `end` marker terminates silently, an
`error` marker raises carrying the frame's `error` member (default
`"Unknown error"`), and a frame carrying the reserved key with any other
value is yielded through. -/
theorem receive_messages_stream_behavior (q : List Json) :
    receiveMessages q
      = (q.takeWhile (fun m => !(isCtl m "end" || isCtl m "error")),
         match q.dropWhile (fun m => !(isCtl m "end" || isCtl m "error")) with
         | [] => StreamEnd.exhausted
         | m :: _ =>
           if isCtl m "end" then StreamEnd.ended
           else StreamEnd.raised (m.getD "error" (.str "Unknown error"))) := by
  induction q with
  | nil => rfl
  | cons m rest ih =>
    cases he : isCtl m "end" with
    | true => simp [receiveMessages, he, List.takeWhile_cons, List.dropWhile_cons]
    | false =>
      cases hr : isCtl m "error" with
      | true =>
        simp [receiveMessages, he, hr, List.takeWhile_cons, List.dropWhile_cons]
      | false =>
        simp [receiveMessages, he, hr, List.takeWhile_cons, List.dropWhile_cons, ih]

/-! Claim C1. -/

/-- C1: a request sent with a configured positive timeout against a
transport that never delivers a reply bearing its id (modelled as the
`TimeoutError` branch of `_send_request`) raises a request-timeout error
naming the method and the timeout duration; afterwards the pending table
holds no entry for the id, a late reply bearing the id is dropped without
changing any state, and every other pending entry and stored result is
unaffected. -/
theorem request_timeout_deregisters_and_drops_late_reply
    (cfg : Option ℚ) (t : ℚ) (st : ClientState) (method : String)
    (lateResult : Json)
    (hcfg : requestTimeoutOpt cfg = some t) :
    (sendRequestTimedOut st method t).2
      = .requestTimeout method t
    ∧ ("req_" ++ toString (st.requestCounter + 1))
        ∉ (sendRequestTimedOut st method t).1.pending
    ∧ lookupPair (sendRequestTimedOut st method t).1.pendingResults
        ("req_" ++ toString (st.requestCounter + 1)) = none
    ∧ handleReply (sendRequestTimedOut st method t).1
        (.obj [("id", .str ("req_" ++ toString (st.requestCounter + 1))),
               ("result", lateResult)])
      = ((sendRequestTimedOut st method t).1,
         .droppedUnexpected ("req_" ++ toString (st.requestCounter + 1)))
    ∧ (∀ other : String, other ≠ "req_" ++ toString (st.requestCounter + 1) →
        ((other ∈ (sendRequestTimedOut st method t).1.pending ↔ other ∈ st.pending)
         ∧ lookupPair (sendRequestTimedOut st method t).1.pendingResults other
             = lookupPair st.pendingResults other)) := by
  have hpend : (sendRequestTimedOut st method t).1.pending
      = (st.pending ++ ["req_" ++ toString (st.requestCounter + 1)]).filter
          (fun x => x ≠ "req_" ++ toString (st.requestCounter + 1)) := rfl
  have hres : (sendRequestTimedOut st method t).1.pendingResults
      = st.pendingResults.filter
          (fun p => p.1 ≠ "req_" ++ toString (st.requestCounter + 1)) := rfl
  have h2 : ("req_" ++ toString (st.requestCounter + 1))
      ∉ (sendRequestTimedOut st method t).1.pending := by
    rw [hpend]
    simp [List.mem_filter]
  refine ⟨rfl, h2, ?_, ?_, ?_⟩
  · rw [hres]
    exact lookupPair_filter_ne _ _
  · have hid : pyStr ((Json.obj
        [("id", .str ("req_" ++ toString (st.requestCounter + 1))),
         ("result", lateResult)]).getd "id")
      = "req_" ++ toString (st.requestCounter + 1) := rfl
    simp only [handleReply, hid]
    rw [if_neg h2]
  · intro other hother
    constructor
    · rw [hpend]
      simp [List.mem_filter, List.mem_append, hother]
    · rw [hres]
      exact lookupPair_filter_other _ _ _ hother

/-- C1 witness: the timeout outcome at a concrete state, method and
configured timeout. -/
theorem request_timeout_witness :
    (sendRequestTimedOut
        { requestCounter := 0, pending := ["req_9"], pendingResults := [] }
        "initialize" 30).2
      = .requestTimeout "initialize" 30
    ∧ "req_1" ∉ (sendRequestTimedOut
        { requestCounter := 0, pending := ["req_9"], pendingResults := [] }
        "initialize" 30).1.pending := by
  have h := request_timeout_deregisters_and_drops_late_reply (some 30) 30
    { requestCounter := 0, pending := ["req_9"], pendingResults := [] }
    "initialize" (.obj []) rfl
  exact ⟨h.1, h.2.1⟩

/-! Claim C5 (corrected). -/

/-- C5 counterexample: a reply carrying an `error` member but no `method`
member completes the request with a `ProtocolStreamError` whose method
field is `None` — not the request's method (`"thread/start"` here) — so
the raised error does not carry the request's method as the claim states. -/
theorem error_reply_method_field_is_none :
    (registerRequest { requestCounter := 0, pending := [], pendingResults := [] }
        "thread/start" none).1 = "req_1"
    ∧ (completeRequest
         (handleReply
           (registerRequest
             { requestCounter := 0, pending := [], pendingResults := [] }
             "thread/start" none).2.2
           (.obj [("id", .str "req_1"), ("error", .obj [("code", .num 5)])])).1
         "req_1").2
      = .error (.protocolStream "App-server returned an error response." none
          (some (.obj [("code", .num 5)])))
    ∧ (none : Option String) ≠ some "thread/start" :=
  ⟨rfl, rfl, by decide⟩

/-- C5 amended: a reply frame carrying a protocol-level `error` member
makes the waiting `_send_request` raise a protocol-stream error instead of
returning a result; the error's payload is the reply's `error` member when
it is an object (otherwise `None`), and its method field is the reply
frame's own `method` member when that is a string (`None` otherwise — in
particular it is not the request's method). -/
theorem error_reply_raises_protocol_stream_error
    (st : ClientState) (rid : String) (reply : Json)
    (hmem : rid ∈ st.pending)
    (hid : reply.getd "id" = .str rid)
    (herr : reply.hasKey "error" = true) :
    (handleReply st reply).2 = .completed rid
    ∧ (completeRequest (handleReply st reply).1 rid).2
      = .error (.protocolStream "App-server returned an error response."
          (asStrOpt (reply.getd "method")) (asObjOpt (reply.getd "error"))) := by
  have hps : pyStr (reply.getd "id") = rid := by rw [hid]; rfl
  have h1 : handleReply st reply
      = ({ st with
            pendingResults := dictSet st.pendingResults rid
              (.exn (.protocolStream "App-server returned an error response."
                (asStrOpt (reply.getd "method")) (asObjOpt (reply.getd "error")))) },
         .completed rid) := by
    simp only [handleReply, hps]
    rw [if_pos hmem, if_pos herr]
  rw [h1]
  refine ⟨rfl, ?_⟩
  simp [completeRequest, lookupPair_dictSet_self]

/-- C5 witness: the amended behaviour at a concrete state and reply frame
that does carry a `method` string. -/
theorem error_reply_raises_witness :
    (completeRequest
        (handleReply
          { requestCounter := 1, pending := ["req_1"], pendingResults := [] }
          (.obj [("id", .str "req_1"), ("method", .str "turn/start"),
                 ("error", .obj [("code", .num 5)])])).1
        "req_1").2
      = .error (.protocolStream "App-server returned an error response."
          (some "turn/start") (some (.obj [("code", .num 5)]))) :=
  (error_reply_raises_protocol_stream_error
    { requestCounter := 1, pending := ["req_1"], pendingResults := [] } "req_1"
    (.obj [("id", .str "req_1"), ("method", .str "turn/start"),
           ("error", .obj [("code", .num 5)])])
    (by decide) rfl rfl).2

/-! Claim C3 (corrected) and its helper lemmas. -/

theorem final_types_excludes_item_thread (t : String)
    (h : strStarts t "item." = true ∨ strStarts t "thread." = true) :
    strIn t FINAL_TYPES = false := by
  cases hc : strIn t FINAL_TYPES with
  | false => rfl
  | true =>
    exfalso
    have hd : t = "result" ∨ t = "final" ∨ t = "done" ∨ t = "completed"
        ∨ t = "response.completed" ∨ t = "response.done"
        ∨ t = "response.final" ∨ t = "turn.completed" := by
      simpa [FINAL_TYPES, strIn] using hc
    rcases hd with h1|h1|h1|h1|h1|h1|h1|h1 <;> subst h1 <;>
      rcases h with h2|h2 <;> exact absurd h2 (by decide)

/-- Predicate composed with classification: the terminal predicate on a
classified message equals error-shape-detection or the raw-dict rule,
because every classification branch preserves the raw frame. -/
theorem pred_classifyItem (d : Json) :
    default_final_event_predicate (classifyItem d) = finalRaw d := by
  simp only [classifyItem]
  repeat' split
  all_goals rfl

theorem pred_classifyTail (d : Json) :
    default_final_event_predicate (classifyTail d) = finalRaw d := by
  simp only [classifyTail]
  repeat' split
  all_goals rfl

theorem pred_classify (d : Json) :
    default_final_event_predicate (classify d) = (isErrorShape d || finalRaw d) := by
  cases herr : isErrorShape d with
  | true => simp [classify, herr, mkErrorMsg, default_final_event_predicate]
  | false =>
    simp only [classify, herr, Bool.false_or]
    rw [if_neg (by simp)]
    repeat' split
    all_goals first
    | exact pred_classifyItem d
    | exact pred_classifyTail d
    | simp [mkThreadEvent, mkTurnEvent, mkLogMsg, mkToolMsg,
        default_final_event_predicate]

/-- C3 counterexample: an object whose type starts with `item.` but which
carries `final: true` is classified (via the completion-detection rule)
and the terminal predicate returns TRUE on it, contradicting the claim
that `item.`-prefixed types are never terminal regardless of other
fields. -/
theorem item_prefix_final_flag_is_terminal :
    strStarts "item.completed" "item." = true
    ∧ default_final_event_predicate (classify
        (.obj [("type", .str "item.completed"), ("final", .bool true)])) = true :=
  ⟨rfl, rfl⟩

/-- C3 amended: a type starting with `turn.` and ending in `completed` is
always terminal after classification; a type starting with `item.` or
`thread.` is non-terminal regardless of status, PROVIDED the object is not
error-shaped and does not carry `final: true`. -/
theorem turn_completed_terminal_item_thread_not :
    (∀ (d : Json) (t : String), getRawType d = some t →
      strStarts t "turn." = true → strEnds t "completed" = true →
      default_final_event_predicate (classify d) = true)
    ∧ (∀ (d : Json) (t : String), getRawType d = some t →
      (strStarts t "item." = true ∨ strStarts t "thread." = true) →
      isErrorShape d = false → (d.getd "final").isTrueB = false →
      default_final_event_predicate (classify d) = false) := by
  constructor
  · intro d t hrt hst hen
    rw [pred_classify]
    cases herr : isErrorShape d with
    | true => simp
    | false =>
      simp only [Bool.false_or]
      unfold finalRaw
      rw [hrt]
      have hne : (t == "") = false :=
        beq_eq_false_iff_ne.mpr (ne_empty_of_strStarts (by decide) hst)
      simp [optStarts, hst, hen, hne, Option.getD]
  · intro d t hrt hpre herr hfin
    rw [pred_classify, herr]
    simp only [Bool.false_or]
    unfold finalRaw
    rw [hrt]
    have hfinT : strIn t FINAL_TYPES = false := final_types_excludes_item_thread t hpre
    rcases hpre with h | h
    · have hturn : strStarts t "turn." = false :=
        strStarts_conflict "item." "turn." (by decide) (by decide) h
      have hne : (t == "") = false :=
        beq_eq_false_iff_ne.mpr (ne_empty_of_strStarts (by decide) h)
      simp [optIn, hfinT, hfin, optStarts, hturn, hne, h]
    · have hturn : strStarts t "turn." = false :=
        strStarts_conflict "thread." "turn." (by decide) (by decide) h
      have hne : (t == "") = false :=
        beq_eq_false_iff_ne.mpr (ne_empty_of_strStarts (by decide) h)
      simp [optIn, hfinT, hfin, optStarts, hturn, hne, h]

/-- C3 witness: both amended conclusions at concrete frames. -/
theorem turn_completed_terminal_witness :
    default_final_event_predicate (classify
        (.obj [("type", .str "turn.completed")])) = true
    ∧ default_final_event_predicate (classify
        (.obj [("type", .str "thread.started"), ("status", .str "completed")]))
      = false := by
  constructor
  · exact turn_completed_terminal_item_thread_not.1
      (.obj [("type", .str "turn.completed")]) "turn.completed"
      rfl (by decide) (by decide)
  · exact turn_completed_terminal_item_thread_not.2
      (.obj [("type", .str "thread.started"), ("status", .str "completed")])
      "thread.started" rfl (Or.inr (by decide)) rfl rfl

/-! Claim C2 (corrected). -/

theorem effectiveRole_of_role_str {d : Json} {r : String}
    (hrole : d.getd "role" = .str r) (hr : r ≠ "") :
    (effectiveRoleContent d).1 = .str r := by
  cases hm : d.getd "message" <;>
    simp [effectiveRoleContent, hm, hrole, jsonOr, Json.truthy, hr]

/-- C2 counterexample: an object with a `role` string key that ALSO
matches the earlier error-detection rule (here via an `error` key) is
classified as an error message, not an item-kind message with that role,
so the claim as stated is false. -/
theorem role_with_error_key_is_error_kind :
    classify (.obj [("role", .str "user"), ("error", .str "boom")])
      = .msg
        { kind := "error",
          raw := .obj [("role", .str "user"), ("error", .str "boom")],
          error := some "boom" } := rfl

/-- C2 amended: for every raw JSON object whose `role` key holds a
non-empty string and which matches none of the earlier classification
rules (error shape, `thread.`/`turn.` type prefix, log-like type,
`item.completed`/`item.started` with an item object, tool-ish keys),
`parse_message` returns an item-kind message whose role equals that value
and whose text is `_extract_text` of the effective content (the top-level
`content`, merged from a `message` block when falsy). -/
theorem parse_role_branch
    (d : Json) (r : String)
    (herr : isErrorShape d = false)
    (hth : optStarts (getRawType d) "thread." = false)
    (htu : optStarts (getRawType d) "turn." = false)
    (hlog : isLogType (getRawType d) = false)
    (hitem : itemEventCond d = false)
    (htool : toolCond d = false)
    (hrole : d.getd "role" = .str r)
    (hr : r ≠ "") :
    parse_message d = .ok (.msg
      { kind := "item", raw := d,
        event_type := getRawType d, role := some r,
        text := extractText (effectiveRoleContent d).2,
        status := strOr (statusOf d) (getRawType d),
        session_id := extractSessionId d }) := by
  have hobj : d.isObjB = true := by
    cases d <;> simp [Json.getd, Json.isObjB] at hrole ⊢
  have hrc := effectiveRole_of_role_str hrole hr
  simp [parse_message, hobj, classify, herr, hth, htu, hlog, hitem, htool,
    classifyTail, hrc, mkRoleMsg]

/-- C2 witness: the amended role-branch behaviour at a concrete frame. -/
theorem parse_role_branch_witness :
    parse_message (.obj [("role", .str "user"), ("content", .str "hi")])
      = .ok (.msg
        { kind := "item",
          raw := .obj [("role", .str "user"), ("content", .str "hi")],
          role := some "user", text := some "hi" }) := by
  rw [parse_role_branch (.obj [("role", .str "user"), ("content", .str "hi")])
    "user" rfl rfl rfl rfl rfl rfl rfl (by decide)]
  simp [extractText, effectiveRoleContent, Json.getd, lookupField, jsonOr,
    Json.truthy]
  exact ⟨rfl, rfl, rfl⟩

/-! Claim C9. -/

/-- `types.EventKind` literal vocabulary. -/
def EVENT_KINDS : List String :=
  ["thread", "turn", "item", "tool", "log", "error", "raw"]

/-- The kind tag of a classified message. -/
def messageKind : Message → String
  | .msg m => m.kind
  | .event e => e.kind

/-- The raw frame carried by a classified message. -/
def messageRaw : Message → Json
  | .msg m => m.raw
  | .event e => e.event

theorem classifyItem_kind_and_raw (d : Json) :
    strIn (messageKind (classifyItem d)) EVENT_KINDS = true
    ∧ messageRaw (classifyItem d) = d := by
  simp only [classifyItem]
  repeat' split
  all_goals exact ⟨rfl, rfl⟩

theorem classifyTail_kind_and_raw (d : Json) :
    strIn (messageKind (classifyTail d)) EVENT_KINDS = true
    ∧ messageRaw (classifyTail d) = d := by
  simp only [classifyTail]
  repeat' split
  all_goals exact ⟨rfl, rfl⟩

theorem classify_kind_and_raw (d : Json) :
    strIn (messageKind (classify d)) EVENT_KINDS = true
    ∧ messageRaw (classify d) = d := by
  simp only [classify]
  repeat' split
  all_goals first
  | exact ⟨rfl, rfl⟩
  | exact classifyItem_kind_and_raw d
  | exact classifyTail_kind_and_raw d

/-- C9: the classifier is total on JSON objects — every dict input yields
exactly one structured message (its kind drawn from the EventKind
vocabulary, its raw field the original frame) without raising; the
message-parse error is produced exactly for non-dict inputs. -/
theorem parse_message_total :
    (∀ fs : List (String × Json), ∃ m : Message,
      parse_message (.obj fs) = .ok m
      ∧ strIn (messageKind m) EVENT_KINDS = true
      ∧ messageRaw m = .obj fs)
    ∧ (∀ j : Json, j.isObjB = false →
      parse_message j = .error
        { message := "Invalid message data type (expected dict, got "
            ++ pyTypeName j ++ ")",
          dataAttr := none }) := by
  constructor
  · intro fs
    refine ⟨classify (.obj fs), rfl, ?_, ?_⟩
    · exact (classify_kind_and_raw (.obj fs)).1
    · exact (classify_kind_and_raw (.obj fs)).2
  · intro j hj
    simp [parse_message, hj]

/-- C9 witness: totality outcomes at a concrete dict and a concrete
non-dict input. -/
theorem parse_message_total_witness :
    (∃ m : Message,
      parse_message (.obj [("type", .str "turn.started")]) = .ok m
      ∧ strIn (messageKind m) EVENT_KINDS = true
      ∧ messageRaw m = .obj [("type", .str "turn.started")])
    ∧ parse_message (.str "x") = .error
        { message := "Invalid message data type (expected dict, got str)",
          dataAttr := none } :=
  ⟨parse_message_total.1 [("type", .str "turn.started")],
   parse_message_total.2 (.str "x") rfl⟩

end CodexSpec
